import Mathlib

/-!
Shallow embedding of the QuizAppBackend core (role-based quiz administration
backend): the quiz submission and scoring pipeline, the student read-boundary
sanitisation, the question ownership checks, registration, and the analytics
score-distribution buckets.  Each definition is translated from the
corresponding JavaScript source file; Mongo documents become Lean structures,
stateful handlers become explicit functions from a store to a result paired
with the new store, and a thrown JavaScript exception (caught by the route's
try/catch, which answers with a generic 500 server error) is modelled by an
error value.  JavaScript `Math.round` on the nonnegative numbers involved is
`jsRound` (round half towards positive infinity); display-only fields of the
Mongoose schemas (titles, subjects, tags, timestamps of records) that no
modelled handler reads are omitted.
-/

namespace QuizApp

/-- JavaScript `Math.round`: round half towards positive infinity, that is
the floor of `q + 1/2`. -/
def jsRound (q : ℚ) : ℤ := (q + 1/2).floor

/-- JavaScript `String.prototype.trim`: strip leading and trailing
whitespace (structurally, over the character list). -/
def jsTrim (s : String) : String :=
  ⟨(((s.data.dropWhile Char.isWhitespace).reverse).dropWhile Char.isWhitespace).reverse⟩

/-- One entry of `questionSchema.options` (`models/Question.js`): subdocument
with an id, a text and an `isCorrect` flag (an absent flag is falsy in every
use the code makes of it, so it is modelled as `false`). -/
structure QOption where
  oid : String
  text : String
  isCorrect : Bool
deriving Repr, DecidableEq

/-- `models/Question.js` (fields the modelled handlers read): type is one of
multiple-choice / true-false / short-answer but stored as a plain string,
`correctAnswer` and `explanation` are optional strings, `createdBy` is the
owning user's id. -/
structure Question where
  qid : String
  questionType : String
  options : List QOption
  correctAnswer : Option String
  explanation : Option String
  createdBy : String
deriving Repr, DecidableEq

/-- `models/Quiz.js` (fields the modelled handlers read); `questions` is the
populated question list, as the submit and read handlers see it. -/
structure Quiz where
  qid : String
  questions : List Question
  createdBy : String
  maxAttempts : Nat
  passingScore : ℤ
  isPublished : Bool
  allowedStudents : List String
  totalAttempts : Nat
  averageScore : ℤ
deriving Repr, DecidableEq

/-- One entry of `quizAttemptSchema.answers` (`models/QuizAttempt.js`). -/
structure AnswerRec where
  question : String
  selectedAnswer : String
  isCorrect : Bool
  timeSpent : Nat
deriving Repr, DecidableEq

/-- `models/QuizAttempt.js` (fields the modelled handlers read). -/
structure Attempt where
  quiz : String
  student : String
  answers : List AnswerRec
  score : Nat
  percentage : ℤ
  timeSpent : Nat
  startedAt : ℤ
  submittedAt : ℤ
  attemptNumber : Nat
  passed : Bool
deriving Repr, DecidableEq

/-- `models/User.js` (fields the modelled handlers read). -/
structure User where
  uid : String
  name : String
  email : String
  password : String
  role : String
  isActive : Bool
  totalQuizzesTaken : Nat
  averageScore : ℤ
deriving Repr, DecidableEq

/-- One element of the request body's `answers` array in
`POST /quizzes/:id/submit`; `timeSpent` is optional (`answer.timeSpent || 0`). -/
structure AnswerIn where
  questionId : String
  selectedAnswer : String
  timeSpent : Option Nat
deriving Repr, DecidableEq

/-- The persistent store: the three collections the modelled handlers touch. -/
structure Store where
  quizzes : List Quiz
  attempts : List Attempt
  users : List User
deriving Repr, DecidableEq

/-- Failure outcomes of `POST /quizzes/:id/submit`.  `notFound` is the 404
"Quiz not found or not published", `attemptLimitExceeded` the 400 "Maximum
attempts exceeded", `serverError` the 500 produced by the route's catch block
when the handler body throws.  `invalidAnswer` is the typed rejection named by
the specification for an answer referencing a question outside the quiz; it is
part of the error vocabulary so that claims about it can be stated. -/
inductive SubmitErr where
  | notFound
  | attemptLimitExceeded
  | invalidAnswer
  | serverError
deriving Repr, DecidableEq

/-- The `attempt` object returned by a successful submit. -/
structure SubmitResult where
  score : Nat
  percentage : ℤ
  passed : Bool
  timeSpent : Nat
  attemptNumber : Nat
deriving Repr, DecidableEq

/-- Decidable equality for `Except`, so that closed handler outcomes can be
checked by evaluation. -/
instance {e a : Type} [DecidableEq e] [DecidableEq a] : DecidableEq (Except e a) := fun x y =>
  match x, y with
  | Except.ok u, Except.ok v =>
    if h : u = v then Decidable.isTrue (by rw [h])
    else Decidable.isFalse (by intro hc; cases hc; exact h rfl)
  | Except.error u, Except.error v =>
    if h : u = v then Decidable.isTrue (by rw [h])
    else Decidable.isFalse (by intro hc; cases hc; exact h rfl)
  | Except.ok _, Except.error _ => Decidable.isFalse (by intro hc; cases hc)
  | Except.error _, Except.ok _ => Decidable.isFalse (by intro hc; cases hc)

/-- Grading of one submitted answer, from the body of the `answers.map`
callback in `POST /quizzes/:id/submit` (`routes/analytics.js`).  `none` means
the callback throws a TypeError: that happens exactly when a short-answer
question has no `correctAnswer` (the code calls
`question.correctAnswer.toLowerCase()` unguarded).  The two choice branches
guard with `correctOption && ...`, so a missing correct option yields a falsy
correctness, modelled as `some false`; an unrecognised `questionType` leaves
`isCorrect` at its initial `false`. -/
def gradeAnswer (question : Question) (selectedAnswer : String) : Option Bool :=
  if question.questionType == "multiple-choice" then
    match question.options.find? (fun opt => opt.isCorrect) with
    | some correctOption => some (correctOption.oid == selectedAnswer)
    | none => some false
  else if question.questionType == "true-false" then
    match question.options.find? (fun opt => opt.isCorrect) with
    | some correctOption => some (correctOption.text.toLower == selectedAnswer.toLower)
    | none => some false
  else if question.questionType == "short-answer" then
    match question.correctAnswer with
    | some ca => some (jsTrim ca.toLower == jsTrim selectedAnswer.toLower)
    | none => none
  else
    some false

/-- The `answers.map(answer => ...)` loop of `POST /quizzes/:id/submit`: look
the question up in `quiz.questions` (an unknown id makes
`question.questionType` throw on `undefined`), grade, and build the persisted
answer record.  A throw anywhere aborts the whole map; the route's catch block
turns it into the 500 `serverError`. -/
def processAnswers (questions : List Question) : List AnswerIn → Except SubmitErr (List AnswerRec)
  | [] => Except.ok []
  | answer :: rest =>
    match questions.find? (fun q => q.qid == answer.questionId) with
    | none => Except.error SubmitErr.serverError
    | some question =>
      match gradeAnswer question answer.selectedAnswer with
      | none => Except.error SubmitErr.serverError
      | some isCorrect =>
        match processAnswers questions rest with
        | Except.error e => Except.error e
        | Except.ok recs =>
          Except.ok ({ question := question.qid,
                       selectedAnswer := answer.selectedAnswer,
                       isCorrect := isCorrect,
                       timeSpent := answer.timeSpent.getD 0 } :: recs)

/-- `POST /quizzes/:id/submit` (`routes/analytics.js`): find the quiz, check
publication, check the prior-attempt count against `maxAttempts`, grade the
answers, persist the attempt, recompute the quiz aggregates
(`totalAttempts += 1`, `averageScore = Math.round(mean percentage)` over all
of the quiz's attempts) and the user aggregates (`totalQuizzesTaken += 1`,
`averageScore = Math.round(mean percentage)` over all of the student's
attempts).  On any failure the store is returned unchanged (nothing was
saved before the failure points). -/
def submit (st : Store) (studentId quizId : String) (answers : List AnswerIn)
    (timeSpent : Nat) (now : ℤ) : Except SubmitErr SubmitResult × Store :=
  match st.quizzes.find? (fun q => q.qid == quizId) with
  | none => (Except.error SubmitErr.notFound, st)
  | some quiz =>
    if quiz.isPublished = false then
      (Except.error SubmitErr.notFound, st)
    else
      let previousAttempts :=
        (st.attempts.filter (fun a => a.quiz == quizId && a.student == studentId)).length
      if quiz.maxAttempts ≤ previousAttempts then
        (Except.error SubmitErr.attemptLimitExceeded, st)
      else
        match processAnswers quiz.questions answers with
        | Except.error e => (Except.error e, st)
        | Except.ok processedAnswers =>
          let correctAnswers := (processedAnswers.filter (fun r => r.isCorrect)).length
          let score := correctAnswers
          let percentage :=
            jsRound (((correctAnswers : ℚ) / (quiz.questions.length : ℚ)) * 100)
          let passed := decide (quiz.passingScore ≤ percentage)
          let attempt : Attempt :=
            { quiz := quizId, student := studentId, answers := processedAnswers,
              score := score, percentage := percentage, timeSpent := timeSpent,
              startedAt := now - (timeSpent : ℤ), submittedAt := now,
              attemptNumber := previousAttempts + 1, passed := passed }
          let attempts2 := st.attempts ++ [attempt]
          let allAttempts := attempts2.filter (fun a => a.quiz == quizId)
          let avgScore :=
            ((allAttempts.map (fun a => a.percentage)).sum : ℚ) / (allAttempts.length : ℚ)
          let quiz2 := { quiz with totalAttempts := quiz.totalAttempts + 1,
                                   averageScore := jsRound avgScore }
          let userAttempts := attempts2.filter (fun a => a.student == studentId)
          let userAvgScore :=
            ((userAttempts.map (fun a => a.percentage)).sum : ℚ) / (userAttempts.length : ℚ)
          let users2 := st.users.map (fun u =>
            if u.uid == studentId then
              { u with totalQuizzesTaken := u.totalQuizzesTaken + 1,
                       averageScore := jsRound userAvgScore }
            else u)
          (Except.ok { score := score, percentage := percentage, passed := passed,
                       timeSpent := timeSpent, attemptNumber := previousAttempts + 1 },
           { quizzes := st.quizzes.map (fun q => if q.qid == quizId then quiz2 else q),
             attempts := attempts2,
             users := users2 })

/-- Failure outcomes shared by the read/update/delete handlers: `notFound` is
a 404, `permissionDenied` a 403 "Access denied" (the specification's
PermissionDenied). -/
inductive ApiErr where
  | notFound
  | permissionDenied
deriving Repr, DecidableEq

/-- What one question option looks like in a quiz-read response.  The full
(teacher/admin) serialisation has `isCorrect := some flag`; the student
sanitisation `{ text: opt.text, _id: opt._id }` produces an object with no
`isCorrect` key at all, modelled as `isCorrect := none`. -/
structure OptionView where
  oid : String
  text : String
  isCorrect : Option Bool
deriving Repr, DecidableEq

/-- What one question looks like in a quiz-read response. -/
structure QuestionView where
  qid : String
  questionType : String
  options : List OptionView
  correctAnswer : Option String
  explanation : Option String
deriving Repr, DecidableEq

/-- Serialisation of a stored question for teacher/admin readers: every stored
field is present. -/
def fullQuestionView (q : Question) : QuestionView :=
  { qid := q.qid, questionType := q.questionType,
    options := q.options.map (fun opt =>
      { oid := opt.oid, text := opt.text, isCorrect := some opt.isCorrect }),
    correctAnswer := q.correctAnswer, explanation := q.explanation }

/-- The student transform of `GET /quizzes/:id` (`...q.toObject(), options:
q.options.map(opt => ({ text: opt.text, _id: opt._id })), correctAnswer:
undefined, explanation: undefined`). -/
def studentQuestionView (q : Question) : QuestionView :=
  { qid := q.qid, questionType := q.questionType,
    options := q.options.map (fun opt =>
      { oid := opt.oid, text := opt.text, isCorrect := none }),
    correctAnswer := none, explanation := none }

/-- Response body of `GET /quizzes/:id`: the quiz with its questions in view
form, plus the requesting student's previous attempts on it. -/
structure QuizReadRes where
  qid : String
  questions : List QuestionView
  userAttempts : List Attempt
deriving Repr, DecidableEq

/-- `GET /quizzes/:id` (quizzes router): resolve, enforce visibility, and for
a student reader sanitise every question.  The handler performs no store
write, so the store is passed through unchanged in every branch. -/
def getQuizById (st : Store) (actor : User) (quizId : String) :
    Except ApiErr QuizReadRes × Store :=
  match st.quizzes.find? (fun q => q.qid == quizId) with
  | none => (Except.error ApiErr.notFound, st)
  | some quiz =>
    if actor.role == "student" then
      if quiz.isPublished = false then
        (Except.error ApiErr.permissionDenied, st)
      else if 0 < quiz.allowedStudents.length &&
              !(quiz.allowedStudents.any (fun s => s == actor.uid)) then
        (Except.error ApiErr.permissionDenied, st)
      else
        (Except.ok
          { qid := quiz.qid,
            questions := quiz.questions.map studentQuestionView,
            userAttempts :=
              st.attempts.filter (fun a => a.quiz == quizId && a.student == actor.uid) },
         st)
    else if actor.role == "teacher" && !(quiz.createdBy == actor.uid) then
      (Except.error ApiErr.permissionDenied, st)
    else
      (Except.ok
        { qid := quiz.qid,
          questions := quiz.questions.map fullQuestionView,
          userAttempts := [] },
       st)

/-- The `authorize('admin', 'teacher')` middleware guarding every questions
route: `roles.includes(req.user.role)`. -/
def questionRouteAuthorized (actor : User) : Bool :=
  actor.role == "admin" || actor.role == "teacher"

/-- `GET /questions/:id`: teachers may only view their own questions. -/
def getQuestionById (qs : List Question) (actor : User) (id : String) :
    Except ApiErr Question :=
  if questionRouteAuthorized actor = false then Except.error ApiErr.permissionDenied
  else
    match qs.find? (fun q => q.qid == id) with
    | none => Except.error ApiErr.notFound
    | some question =>
      if actor.role == "teacher" && !(question.createdBy == actor.uid) then
        Except.error ApiErr.permissionDenied
      else
        Except.ok question

/-- `PUT /questions/:id`: after the ownership check the handler merges the
request body into the stored document (`Object.assign(question, req.body)`),
modelled by an arbitrary merge function `upd`, and saves it. -/
def updateQuestion (qs : List Question) (actor : User) (id : String)
    (upd : Question → Question) : Except ApiErr Question × List Question :=
  if questionRouteAuthorized actor = false then (Except.error ApiErr.permissionDenied, qs)
  else
    match qs.find? (fun q => q.qid == id) with
    | none => (Except.error ApiErr.notFound, qs)
    | some question =>
      if actor.role == "teacher" && !(question.createdBy == actor.uid) then
        (Except.error ApiErr.permissionDenied, qs)
      else
        let question2 := upd question
        (Except.ok question2, qs.map (fun q => if q.qid == id then question2 else q))

/-- `DELETE /questions/:id`: after the ownership check the handler deletes the
document (`Question.findByIdAndDelete`). -/
def deleteQuestion (qs : List Question) (actor : User) (id : String) :
    Except ApiErr Unit × List Question :=
  if questionRouteAuthorized actor = false then (Except.error ApiErr.permissionDenied, qs)
  else
    match qs.find? (fun q => q.qid == id) with
    | none => (Except.error ApiErr.notFound, qs)
    | some question =>
      if actor.role == "teacher" && !(question.createdBy == actor.uid) then
        (Except.error ApiErr.permissionDenied, qs)
      else
        (Except.ok (), qs.filter (fun q => !(q.qid == id)))

/-- Failure outcomes of the account-creation endpoints. -/
inductive RegErr where
  | validation
  | alreadyExists
deriving Repr, DecidableEq

/-- Input validation of `POST /auth/register` (express-validator chain): name
trimmed to 2..50 characters, password at least 6, role absent or one of the
three known roles.  (The `isEmail` format check is not modelled.) -/
def registerInputValid (name password : String) (requestedRole : Option String) : Bool :=
  2 ≤ (jsTrim name).length && (jsTrim name).length ≤ 50 && 6 ≤ password.length &&
    (match requestedRole with
     | none => true
     | some r => r == "admin" || r == "teacher" || r == "student")

/-- `POST /auth/register` (`routes/auth.js`): after validation the handler
destructures only `{ name, email, password }` from the body, then executes the
bare statement `role = 'admin';` — the requested role is never read — and
creates the user with `role: role || 'student'`.  `newId` stands for the
store-generated document id. -/
def register (users : List User) (name email password : String)
    (requestedRole : Option String) (newId : String) : Except RegErr User × List User :=
  if registerInputValid name password requestedRole = false then
    (Except.error RegErr.validation, users)
  else
    let role := "admin"
    if users.any (fun u => u.email == email) then
      (Except.error RegErr.alreadyExists, users)
    else
      let user : User :=
        { uid := newId, name := jsTrim name, email := email, password := password,
          role := if role == "" then "student" else role,
          isActive := true, totalQuizzesTaken := 0, averageScore := 0 }
      (Except.ok user, users ++ [user])

/-- `POST /users` (`routes/users.js`, guarded by `authorize('admin')`): an
admin creates a user with the explicitly supplied role. -/
def adminCreateUser (users : List User) (actor : User)
    (name email password role : String) (newId : String) :
    Except ApiErr (Except RegErr User) × List User :=
  if !(actor.role == "admin") then (Except.error ApiErr.permissionDenied, users)
  else if !(2 ≤ (jsTrim name).length && (jsTrim name).length ≤ 50 && 6 ≤ password.length &&
            (role == "admin" || role == "teacher" || role == "student")) then
    (Except.ok (Except.error RegErr.validation), users)
  else if users.any (fun u => u.email == email) then
    (Except.ok (Except.error RegErr.alreadyExists), users)
  else
    let user : User :=
      { uid := newId, name := jsTrim name, email := email, password := password,
        role := role, isActive := true, totalQuizzesTaken := 0, averageScore := 0 }
    (Except.ok (Except.ok user), users ++ [user])

/-- The five score-distribution filter predicates of
`GET /analytics/quiz-analytics/:id` (`routes/analytics.js`), in order:
`p >= 0 && p < 21`, `p >= 21 && p < 41`, `p >= 41 && p < 61`,
`p >= 61 && p < 81`, `p >= 81`. -/
def buckets : List (ℤ → Bool) :=
  [fun p => decide (0 ≤ p) && decide (p < 21),
   fun p => decide (21 ≤ p) && decide (p < 41),
   fun p => decide (41 ≤ p) && decide (p < 61),
   fun p => decide (61 ≤ p) && decide (p < 81),
   fun p => decide (81 ≤ p)]

/-- The `scoreDistribution` object of `GET /analytics/quiz-analytics/:id`: the
five bucket counts over the quiz's attempts, in histogram order. -/
def scoreDistribution (attempts : List Attempt) : List Nat :=
  buckets.map (fun b => (attempts.filter (fun att => b att.percentage)).length)

/-! Concrete fixtures used to instantiate the theorems below on closed inputs. -/

/-- A well-formed multiple-choice question whose correct option has id
`correctOid`. -/
def mkChoiceQuestion (i correctOid : String) : Question :=
  { qid := i, questionType := "multiple-choice",
    options := [{ oid := correctOid, text := "right", isCorrect := true },
                { oid := correctOid ++ "x", text := "wrong", isCorrect := false }],
    correctAnswer := none, explanation := none, createdBy := "teacherA" }

/-- A student account. -/
def studentS1 : User :=
  { uid := "s1", name := "Stu", email := "s1@example.com", password := "hunter2",
    role := "student", isActive := true, totalQuizzesTaken := 0, averageScore := 0 }

/-- Published quiz with four multiple-choice questions, passing score 60. -/
def quizFour : Quiz :=
  { qid := "q4",
    questions := [mkChoiceQuestion "a" "a1", mkChoiceQuestion "b" "b1",
                  mkChoiceQuestion "c" "c1", mkChoiceQuestion "d" "d1"],
    createdBy := "teacherA", maxAttempts := 3, passingScore := 60, isPublished := true,
    allowedStudents := [], totalAttempts := 0, averageScore := 0 }

/-- Store holding `quizFour`, no attempts yet. -/
def storeFour : Store := { quizzes := [quizFour], attempts := [], users := [studentS1] }

/-- Answers to `quizFour`: three correct, the fourth wrong. -/
def answersThreeCorrect : List AnswerIn :=
  [{ questionId := "a", selectedAnswer := "a1", timeSpent := some 1 },
   { questionId := "b", selectedAnswer := "b1", timeSpent := some 1 },
   { questionId := "c", selectedAnswer := "c1", timeSpent := some 1 },
   { questionId := "d", selectedAnswer := "nope", timeSpent := some 1 }]

/-- Published quiz allowing a single attempt. -/
def quizOneAttempt : Quiz :=
  { qid := "qL", questions := [mkChoiceQuestion "a" "a1"], createdBy := "teacherA",
    maxAttempts := 1, passingScore := 60, isPublished := true, allowedStudents := [],
    totalAttempts := 1, averageScore := 100 }

/-- The prior (and only allowed) attempt on `quizOneAttempt` by student s1. -/
def priorAttemptL : Attempt :=
  { quiz := "qL", student := "s1", answers := [], score := 1, percentage := 100,
    timeSpent := 5, startedAt := 0, submittedAt := 5, attemptNumber := 1, passed := true }

/-- Store in which student s1 has exhausted `quizOneAttempt`. -/
def storeLimited : Store :=
  { quizzes := [quizOneAttempt], attempts := [priorAttemptL], users := [studentS1] }

/-- Published quiz with three multiple-choice questions and one prior attempt
at percentage 100. -/
def quizThree : Quiz :=
  { qid := "q3",
    questions := [mkChoiceQuestion "a" "a1", mkChoiceQuestion "b" "b1",
                  mkChoiceQuestion "c" "c1"],
    createdBy := "teacherA", maxAttempts := 3, passingScore := 60, isPublished := true,
    allowedStudents := [], totalAttempts := 1, averageScore := 100 }

/-- A prior attempt on `quizThree` by another student, percentage 100. -/
def priorAttempt100 : Attempt :=
  { quiz := "q3", student := "s0", answers := [], score := 3, percentage := 100,
    timeSpent := 9, startedAt := 0, submittedAt := 9, attemptNumber := 1, passed := true }

/-- Store holding `quizThree` with its one prior attempt. -/
def storeThree : Store :=
  { quizzes := [quizThree], attempts := [priorAttempt100], users := [studentS1] }

/-- One correct answer out of the three questions of `quizThree`. -/
def answersOneOfThree : List AnswerIn :=
  [{ questionId := "a", selectedAnswer := "a1", timeSpent := some 5 }]

/-- A short-answer question whose canonical `correctAnswer` is absent. -/
def shortAnswerNoKey : Question :=
  { qid := "sa", questionType := "short-answer", options := [], correctAnswer := none,
    explanation := none, createdBy := "teacherA" }

/-- A question of an unrecognised type. -/
def essayQuestion : Question :=
  { qid := "es", questionType := "essay", options := [], correctAnswer := none,
    explanation := none, createdBy := "teacherA" }

/-- A multiple-choice question with no option marked correct. -/
def choiceNoCorrect : Question :=
  { qid := "nc", questionType := "multiple-choice",
    options := [{ oid := "o1", text := "only", isCorrect := false }],
    correctAnswer := none, explanation := none, createdBy := "teacherA" }

/-- Published quiz containing only `shortAnswerNoKey`. -/
def quizShortAnswer : Quiz :=
  { qid := "qs", questions := [shortAnswerNoKey], createdBy := "teacherA",
    maxAttempts := 3, passingScore := 60, isPublished := true, allowedStudents := [],
    totalAttempts := 0, averageScore := 0 }

/-- Store holding `quizShortAnswer`. -/
def storeShortAnswer : Store :=
  { quizzes := [quizShortAnswer], attempts := [], users := [studentS1] }

/-- Published quiz with a single multiple-choice question. -/
def quizSingle : Quiz :=
  { qid := "qz", questions := [mkChoiceQuestion "a" "a1"], createdBy := "teacherA",
    maxAttempts := 3, passingScore := 60, isPublished := true, allowedStudents := [],
    totalAttempts := 0, averageScore := 0 }

/-- Store holding `quizSingle`. -/
def storeSingle : Store := { quizzes := [quizSingle], attempts := [], users := [studentS1] }

/-- Two answers to the same single question of `quizSingle`, both correct. -/
def duplicateAnswers : List AnswerIn :=
  [{ questionId := "a", selectedAnswer := "a1", timeSpent := none },
   { questionId := "a", selectedAnswer := "a1", timeSpent := none }]

/-- A question carrying every answer-key field a student must not see. -/
def richQuestion : Question :=
  { qid := "rq", questionType := "multiple-choice",
    options := [{ oid := "o1", text := "Paris", isCorrect := true },
                { oid := "o2", text := "Rome", isCorrect := false }],
    correctAnswer := some "Paris", explanation := some "capital of France",
    createdBy := "teacherA" }

/-- Published public quiz containing `richQuestion`. -/
def quizRich : Quiz :=
  { qid := "qr", questions := [richQuestion], createdBy := "teacherA", maxAttempts := 3,
    passingScore := 60, isPublished := true, allowedStudents := [], totalAttempts := 0,
    averageScore := 0 }

/-- Store holding `quizRich`. -/
def storeRich : Store := { quizzes := [quizRich], attempts := [], users := [studentS1] }

/-- An administrator account. -/
def adminA : User :=
  { uid := "adm", name := "Ada", email := "ada@example.com", password := "rootroot",
    role := "admin", isActive := true, totalQuizzesTaken := 0, averageScore := 0 }

/-- A question owned by teacher A. -/
def questionOfA : Question :=
  { qid := "QA", questionType := "multiple-choice",
    options := [{ oid := "o1", text := "x", isCorrect := true }],
    correctAnswer := none, explanation := none, createdBy := "teacherA" }

/-- A distinct teacher account, not the owner of `questionOfA`. -/
def teacherB : User :=
  { uid := "teacherB", name := "Bea", email := "bea@example.com", password := "hunter2",
    role := "teacher", isActive := true, totalQuizzesTaken := 0, averageScore := 0 }

/-- An attempt whose percentage is 50, inside the histogram's middle bucket. -/
def attemptP50 : Attempt :=
  { quiz := "q", student := "s", answers := [], score := 1, percentage := 50,
    timeSpent := 1, startedAt := 0, submittedAt := 1, attemptNumber := 1, passed := false }

/-- The graded answer records produced for `answersThreeCorrect`. -/
def processedThreeCorrect : List AnswerRec :=
  [{ question := "a", selectedAnswer := "a1", isCorrect := true, timeSpent := 1 },
   { question := "b", selectedAnswer := "b1", isCorrect := true, timeSpent := 1 },
   { question := "c", selectedAnswer := "c1", isCorrect := true, timeSpent := 1 },
   { question := "d", selectedAnswer := "nope", isCorrect := false, timeSpent := 1 }]

/-- The graded answer record produced for `answersOneOfThree`. -/
def processedOneOfThree : List AnswerRec :=
  [{ question := "a", selectedAnswer := "a1", isCorrect := true, timeSpent := 5 }]

theorem processAnswers_length (qs : List Question) :
    ∀ answers processed, processAnswers qs answers = Except.ok processed →
      processed.length = answers.length := by
  intro answers
  induction answers with
  | nil => intro processed h; cases h; rfl
  | cons a rest ih =>
    intro processed h
    simp only [processAnswers] at h
    cases hf : qs.find? (fun q => q.qid == a.questionId) with
    | none => simp only [hf] at h; cases h
    | some q =>
      simp only [hf] at h
      cases hg : gradeAnswer q a.selectedAnswer with
      | none => simp only [hg] at h; cases h
      | some b =>
        simp only [hg] at h
        cases hr : processAnswers qs rest with
        | error e => simp only [hr] at h; cases h
        | ok recs =>
          simp only [hr] at h
          cases h
          simp [ih recs hr]

theorem processAnswers_ok_of_resolvable (qs : List Question) :
    ∀ answers,
      (∀ a ∈ answers, ∃ q, qs.find? (fun x => x.qid == a.questionId) = some q ∧
        gradeAnswer q a.selectedAnswer ≠ none) →
      ∃ processed, processAnswers qs answers = Except.ok processed := by
  intro answers
  induction answers with
  | nil => intro _; exact ⟨[], rfl⟩
  | cons a rest ih =>
    intro h
    obtain ⟨q, hf, hg⟩ := h a (List.mem_cons_self a rest)
    obtain ⟨b, hb⟩ := Option.ne_none_iff_exists'.mp hg
    obtain ⟨recs, hr⟩ := ih (fun x hx => h x (List.mem_cons_of_mem a hx))
    refine ⟨{ question := q.qid, selectedAnswer := a.selectedAnswer, isCorrect := b,
              timeSpent := a.timeSpent.getD 0 } :: recs, ?_⟩
    simp only [processAnswers, hf, hb, hr]

theorem processAnswers_error_of_unknown (qs : List Question) :
    ∀ answers, (∃ a ∈ answers, qs.find? (fun x => x.qid == a.questionId) = none) →
      processAnswers qs answers = Except.error SubmitErr.serverError := by
  intro answers
  induction answers with
  | nil => rintro ⟨a, ha, -⟩; cases ha
  | cons a rest ih =>
    rintro ⟨x, hx, hfx⟩
    rcases List.mem_cons.mp hx with rfl | hx'
    · simp only [processAnswers, hfx]
    · cases hf : qs.find? (fun q => q.qid == a.questionId) with
      | none => simp only [processAnswers, hf]
      | some q =>
        cases hg : gradeAnswer q a.selectedAnswer with
        | none => simp only [processAnswers, hf, hg]
        | some b => simp only [processAnswers, hf, hg, ih ⟨x, hx', hfx⟩]

theorem jsRound_eq_intFloor (q : ℚ) : jsRound q = ⌊q + 1/2⌋ := by
  unfold jsRound
  rw [Rat.floor_def', ← Rat.floor_def]

theorem jsRound_nonneg (q : ℚ) (h : 0 ≤ q) : 0 ≤ jsRound q := by
  rw [jsRound_eq_intFloor]
  exact Int.le_floor.mpr (by push_cast; linarith)

theorem jsRound_le_100 (q : ℚ) (h : q ≤ 100) : jsRound q ≤ 100 := by
  rw [jsRound_eq_intFloor]
  calc ⌊q + 1/2⌋ ≤ ⌊(201/2 : ℚ)⌋ := Int.floor_mono (by linarith)
    _ = 100 := by
      rw [Int.floor_eq_iff]
      norm_num


theorem submit_ok_spec (st : Store) (studentId quizId : String) (answers : List AnswerIn)
    (timeSpent : Nat) (now : ℤ) (quiz : Quiz) (processed : List AnswerRec)
    (hq : st.quizzes.find? (fun q => q.qid == quizId) = some quiz)
    (hpub : quiz.isPublished = true)
    (hlt : (st.attempts.filter (fun a => a.quiz == quizId && a.student == studentId)).length
             < quiz.maxAttempts)
    (hproc : processAnswers quiz.questions answers = Except.ok processed) :
    ∃ att st2, submit st studentId quizId answers timeSpent now =
        (Except.ok { score := att.score, percentage := att.percentage, passed := att.passed,
                     timeSpent := timeSpent, attemptNumber := att.attemptNumber }, st2) ∧
      att.quiz = quizId ∧ att.student = studentId ∧ att.answers = processed ∧
      att.score = (processed.filter (fun rec => rec.isCorrect)).length ∧
      att.percentage =
        jsRound (((att.score : ℚ) / (quiz.questions.length : ℚ)) * 100) ∧
      att.passed = decide (quiz.passingScore ≤ att.percentage) ∧
      att.attemptNumber =
        (st.attempts.filter (fun a => a.quiz == quizId && a.student == studentId)).length + 1 ∧
      st2.attempts = st.attempts ++ [att] ∧
      st2.quizzes = st.quizzes.map (fun q =>
        if q.qid == quizId then
          { quiz with totalAttempts := quiz.totalAttempts + 1,
                      averageScore := jsRound
                        (((((st.attempts ++ [att]).filter (fun a => a.quiz == quizId)).map
                            (fun a => a.percentage)).sum : ℚ) /
                          (((st.attempts ++ [att]).filter (fun a => a.quiz == quizId)).length : ℚ)) }
        else q) ∧
      st2.users = st.users.map (fun u =>
        if u.uid == studentId then
          { u with totalQuizzesTaken := u.totalQuizzesTaken + 1,
                   averageScore := jsRound
                     (((((st.attempts ++ [att]).filter (fun a => a.student == studentId)).map
                         (fun a => a.percentage)).sum : ℚ) /
                       (((st.attempts ++ [att]).filter (fun a => a.student == studentId)).length : ℚ)) }
        else u) := by
  simp only [submit, hq, hpub]
  rw [if_neg (by simp), if_neg (Nat.not_le.mpr hlt), hproc]
  refine ⟨{ quiz := quizId, student := studentId, answers := processed,
            score := (processed.filter (fun rec => rec.isCorrect)).length,
            percentage := jsRound
              ((((processed.filter (fun rec => rec.isCorrect)).length : ℚ) /
                (quiz.questions.length : ℚ)) * 100),
            timeSpent := timeSpent,
            startedAt := now - (timeSpent : ℤ), submittedAt := now,
            attemptNumber :=
              (st.attempts.filter (fun a => a.quiz == quizId && a.student == studentId)).length + 1,
            passed := decide (quiz.passingScore ≤ jsRound
              ((((processed.filter (fun rec => rec.isCorrect)).length : ℚ) /
                (quiz.questions.length : ℚ)) * 100)) }, _,
          rfl, rfl, rfl, rfl, rfl, rfl, rfl, rfl, rfl, rfl, rfl⟩


/-- C1 counterexample: the stated preconditions are not sufficient for a
result to be returned and persisted.  The quiz is published, the attempt
limit is not reached, and the single answer references a member of
`quiz.questions` — yet that member is a short-answer question with no
canonical answer, so grading throws and submit answers the 500 server error,
persisting nothing. -/
theorem C1_preconditions_not_sufficient :
    quizShortAnswer.isPublished = true ∧
    (storeShortAnswer.attempts.filter
        (fun a => a.quiz == "qs" && a.student == "s1")).length
      < quizShortAnswer.maxAttempts ∧
    (∀ a ∈ [({ questionId := "sa", selectedAnswer := "hello",
               timeSpent := none } : AnswerIn)],
      ∃ q ∈ quizShortAnswer.questions, q.qid = a.questionId) ∧
    submit storeShortAnswer "s1" "qs"
      [{ questionId := "sa", selectedAnswer := "hello", timeSpent := none }] 30 2000 =
      (Except.error SubmitErr.serverError, storeShortAnswer) :=
  ⟨rfl, by decide, by decide, by decide⟩

/-- C1 (amended): a submission passing the preconditions (quiz found and
published, attempt limit not reached) whose grading completes without a
throw — that is, every answer resolves to a quiz question carrying the
correctness data its type needs — returns and persists a result with
score = count of correctly graded answers, percentage =
round(100 * score / quiz question count) and passed =
(percentage >= passingScore); with the stated preconditions alone the
submission can instead fail with a 500 server error, persisting nothing. -/
theorem C1_submit_scoring (st : Store) (studentId quizId : String)
    (answers : List AnswerIn) (timeSpent : Nat) (now : ℤ) (quiz : Quiz)
    (processed : List AnswerRec)
    (hq : st.quizzes.find? (fun q => q.qid == quizId) = some quiz)
    (hpub : quiz.isPublished = true)
    (hlt : (st.attempts.filter (fun a => a.quiz == quizId && a.student == studentId)).length
             < quiz.maxAttempts)
    (hproc : processAnswers quiz.questions answers = Except.ok processed) :
    ∃ r st2, submit st studentId quizId answers timeSpent now = (Except.ok r, st2) ∧
      r.score = (processed.filter (fun rec => rec.isCorrect)).length ∧
      r.percentage = jsRound ((100 * (r.score : ℚ)) / (quiz.questions.length : ℚ)) ∧
      (r.passed = true ↔ quiz.passingScore ≤ r.percentage) ∧
      ∃ att, st2.attempts = st.attempts ++ [att] ∧
        att.score = r.score ∧ att.percentage = r.percentage ∧ att.passed = r.passed := by
  obtain ⟨att, st2, heq, hquiz, hstu, hans, hscore, hpct, hpass, hnum, hatt, hqz, hus⟩ :=
    submit_ok_spec st studentId quizId answers timeSpent now quiz processed hq hpub hlt hproc
  refine ⟨_, st2, heq, hscore, ?_, ?_, att, hatt, rfl, rfl, rfl⟩
  · rw [hpct]
    ring_nf
  · rw [hpass]
    exact decide_eq_true_iff

unseal Rat.add Rat.mul Rat.inv Rat.sub in
/-- C1 witness: the specification scenario — passing score 60, four
multiple-choice questions, three answered correctly — yields score 3,
percentage 75, passed. -/
theorem C1_submit_scoring_witness :
    (∃ r st2, submit storeFour "s1" "q4" answersThreeCorrect 100 1000 = (Except.ok r, st2) ∧
      r.score = (processedThreeCorrect.filter (fun rec => rec.isCorrect)).length ∧
      r.percentage = jsRound ((100 * (r.score : ℚ)) / (quizFour.questions.length : ℚ)) ∧
      (r.passed = true ↔ quizFour.passingScore ≤ r.percentage) ∧
      ∃ att, st2.attempts = storeFour.attempts ++ [att] ∧
        att.score = r.score ∧ att.percentage = r.percentage ∧ att.passed = r.passed) ∧
    (submit storeFour "s1" "q4" answersThreeCorrect 100 1000).1 =
      Except.ok { score := 3, percentage := 75, passed := true, timeSpent := 100,
                  attemptNumber := 1 } :=
  ⟨C1_submit_scoring storeFour "s1" "q4" answersThreeCorrect 100 1000 quizFour
      processedThreeCorrect rfl rfl (by decide) rfl,
   by decide⟩

/-- C2: once the student's prior-attempt count on a published quiz has reached
`maxAttempts`, submit fails with AttemptLimitExceeded and the store — attempts
and all aggregate fields — is unchanged. -/
theorem C2_attempt_limit_rejected (st : Store) (studentId quizId : String)
    (answers : List AnswerIn) (timeSpent : Nat) (now : ℤ) (quiz : Quiz)
    (hq : st.quizzes.find? (fun q => q.qid == quizId) = some quiz)
    (hpub : quiz.isPublished = true)
    (hge : quiz.maxAttempts ≤
      (st.attempts.filter (fun a => a.quiz == quizId && a.student == studentId)).length) :
    submit st studentId quizId answers timeSpent now =
      (Except.error SubmitErr.attemptLimitExceeded, st) := by
  simp only [submit, hq, hpub]
  rw [if_neg (by simp), if_pos hge]

/-- C2 witness: a second submission on a maxAttempts = 1 quiz is rejected and
the store is untouched. -/
theorem C2_attempt_limit_rejected_witness :
    submit storeLimited "s1" "qL" [] 5 100 =
      (Except.error SubmitErr.attemptLimitExceeded, storeLimited) :=
  C2_attempt_limit_rejected storeLimited "s1" "qL" [] 5 100 quizOneAttempt rfl rfl
    (by decide)


unseal Rat.add Rat.mul Rat.inv Rat.sub in
/-- C3 counterexample: after a successful submission on `storeThree` the
stored quiz `averageScore` is 67 while the exact mean percentage of the
quiz's attempts is 133/2 = 66.5, so the stored aggregate does not equal the
mean. -/
theorem C3_average_not_exact_mean :
    ((submit storeThree "s1" "q3" answersOneOfThree 20 1000).2.quizzes.map
        (fun q => q.averageScore)) = [67] ∧
    ((((submit storeThree "s1" "q3" answersOneOfThree 20 1000).2.attempts.filter
          (fun a => a.quiz == "q3")).map (fun a => (a.percentage : ℚ))).sum /
        (((submit storeThree "s1" "q3" answersOneOfThree 20 1000).2.attempts.filter
          (fun a => a.quiz == "q3")).length : ℚ)) = 133 / 2 ∧
    ¬((67 : ℚ) = 133 / 2) :=
  ⟨by decide, by decide, by decide⟩

/-- C3 (amended): after every successful submission the updated quiz holds
`totalAttempts` equal to the new count of its attempts (provided the count
matched before) and `averageScore` equal to the JavaScript-rounded mean of
their percentages, and the submitting user's `averageScore` equals the
rounded mean over that user's attempts. -/
theorem C3_aggregates_rounded_mean (st : Store) (studentId quizId : String)
    (answers : List AnswerIn) (timeSpent : Nat) (now : ℤ) (quiz : Quiz)
    (processed : List AnswerRec)
    (hq : st.quizzes.find? (fun q => q.qid == quizId) = some quiz)
    (hpub : quiz.isPublished = true)
    (hlt : (st.attempts.filter (fun a => a.quiz == quizId && a.student == studentId)).length
             < quiz.maxAttempts)
    (hproc : processAnswers quiz.questions answers = Except.ok processed)
    (hcount : quiz.totalAttempts = (st.attempts.filter (fun a => a.quiz == quizId)).length) :
    ∃ r st2, submit st studentId quizId answers timeSpent now = (Except.ok r, st2) ∧
      (∀ q2 ∈ st2.quizzes, q2.qid = quizId →
        q2.totalAttempts = (st2.attempts.filter (fun a => a.quiz == quizId)).length ∧
        q2.averageScore = jsRound
          ((((st2.attempts.filter (fun a => a.quiz == quizId)).map
              (fun a => a.percentage)).sum : ℚ) /
            ((st2.attempts.filter (fun a => a.quiz == quizId)).length : ℚ))) ∧
      (∀ u2 ∈ st2.users, u2.uid = studentId →
        u2.averageScore = jsRound
          ((((st2.attempts.filter (fun a => a.student == studentId)).map
              (fun a => a.percentage)).sum : ℚ) /
            ((st2.attempts.filter (fun a => a.student == studentId)).length : ℚ))) := by
  obtain ⟨att, st2, heq, hquiz, hstu, hans, hscore, hpct, hpass, hnum, hatt, hqz, hus⟩ :=
    submit_ok_spec st studentId quizId answers timeSpent now quiz processed hq hpub hlt hproc
  refine ⟨_, st2, heq, ?_, ?_⟩
  · intro q2 hmem hq2
    rw [hqz] at hmem
    obtain ⟨q, hqmem, hqe⟩ := List.mem_map.mp hmem
    by_cases hcond : (q.qid == quizId) = true
    · rw [if_pos hcond] at hqe
      subst hqe
      refine ⟨?_, ?_⟩
      · show quiz.totalAttempts + 1 = _
        rw [hcount, hatt, List.filter_append]
        simp [hquiz]
      · show jsRound _ = jsRound _
        rw [hatt]
    · rw [if_neg hcond] at hqe
      subst hqe
      exact absurd hq2 (by simpa using hcond)
  · intro u2 hmem hu2
    rw [hus] at hmem
    obtain ⟨u, humem, hue⟩ := List.mem_map.mp hmem
    by_cases hcond : (u.uid == studentId) = true
    · rw [if_pos hcond] at hue
      subst hue
      show jsRound _ = jsRound _
      rw [hatt]
    · rw [if_neg hcond] at hue
      subst hue
      exact absurd hu2 (by simpa using hcond)

unseal Rat.add Rat.mul Rat.inv Rat.sub in
/-- C3 witness: the amended aggregate property instantiated on `storeThree`. -/
theorem C3_aggregates_rounded_mean_witness :
    ∃ r st2, submit storeThree "s1" "q3" answersOneOfThree 20 1000 = (Except.ok r, st2) ∧
      (∀ q2 ∈ st2.quizzes, q2.qid = "q3" →
        q2.totalAttempts = (st2.attempts.filter (fun a => a.quiz == "q3")).length ∧
        q2.averageScore = jsRound
          ((((st2.attempts.filter (fun a => a.quiz == "q3")).map
              (fun a => a.percentage)).sum : ℚ) /
            ((st2.attempts.filter (fun a => a.quiz == "q3")).length : ℚ))) ∧
      (∀ u2 ∈ st2.users, u2.uid = "s1" →
        u2.averageScore = jsRound
          ((((st2.attempts.filter (fun a => a.student == "s1")).map
              (fun a => a.percentage)).sum : ℚ) /
            ((st2.attempts.filter (fun a => a.student == "s1")).length : ℚ))) :=
  C3_aggregates_rounded_mean storeThree "s1" "q3" answersOneOfThree 20 1000 quizThree
    processedOneOfThree rfl rfl (by decide) rfl rfl

/-- C4 counterexample: grading is not total — a short-answer question with no
canonical `correctAnswer` makes the grading callback throw, and the one
malformed question aborts the whole submission with a 500 server error
instead of being graded incorrect. -/
theorem C4_short_answer_missing_key_aborts :
    gradeAnswer shortAnswerNoKey "any" = none ∧
    submit storeShortAnswer "s1" "qs"
      [{ questionId := "sa", selectedAnswer := "any", timeSpent := none }] 20 1000 =
      (Except.error SubmitErr.serverError, storeShortAnswer) :=
  ⟨rfl, by decide⟩

/-- C4 (amended): grading throws exactly for a short-answer question whose
canonical answer is absent (aborting the submission); every other malformed
case — unrecognised question type, or a choice question with no option marked
correct — is graded incorrect without throwing. -/
theorem C4_grading_total_except_short_answer (q : Question) (s : String) :
    (gradeAnswer q s = none ↔ q.questionType = "short-answer" ∧ q.correctAnswer = none) ∧
    (q.questionType ≠ "multiple-choice" → q.questionType ≠ "true-false" →
      q.questionType ≠ "short-answer" → gradeAnswer q s = some false) ∧
    ((q.questionType = "multiple-choice" ∨ q.questionType = "true-false") →
      q.options.find? (fun opt => opt.isCorrect) = none → gradeAnswer q s = some false) := by
  by_cases h1 : q.questionType = "multiple-choice"
  · cases hf : q.options.find? (fun opt => opt.isCorrect) with
    | none => simp [gradeAnswer, h1, hf]
    | some o => simp [gradeAnswer, h1, hf]
  · by_cases h2 : q.questionType = "true-false"
    · cases hf : q.options.find? (fun opt => opt.isCorrect) with
      | none => simp [gradeAnswer, h1, h2, hf]
      | some o => simp [gradeAnswer, h1, h2, hf]
    · by_cases h3 : q.questionType = "short-answer"
      · cases hc : q.correctAnswer with
        | none => simp [gradeAnswer, h1, h2, h3, hc]
        | some ca => simp [gradeAnswer, h1, h2, h3, hc]
      · simp [gradeAnswer, h1, h2, h3]

/-- C4 witness: the amended grading property instantiated on the three
malformed-question fixtures. -/
theorem C4_grading_total_except_short_answer_witness :
    gradeAnswer shortAnswerNoKey "x" = none ∧
    gradeAnswer essayQuestion "x" = some false ∧
    gradeAnswer choiceNoCorrect "x" = some false :=
  ⟨(C4_grading_total_except_short_answer shortAnswerNoKey "x").1.mpr ⟨rfl, rfl⟩,
   (C4_grading_total_except_short_answer essayQuestion "x").2.1
     (by decide) (by decide) (by decide),
   (C4_grading_total_except_short_answer choiceNoCorrect "x").2.2 (Or.inl rfl) rfl⟩

/-- C5 counterexample: an answer referencing a question id outside the quiz
makes submit fail with the generic 500 server error (a thrown TypeError), not
with the typed InvalidAnswer rejection the claim names. -/
theorem C5_unknown_question_not_typed :
    submit storeSingle "s1" "qz"
      [{ questionId := "zzz", selectedAnswer := "a1", timeSpent := none }] 20 1000 =
      (Except.error SubmitErr.serverError, storeSingle) ∧
    SubmitErr.serverError ≠ SubmitErr.invalidAnswer :=
  ⟨by decide, by decide⟩

/-- C5 (amended): when some answer's questionId resolves to no question of a
published quiz within the attempt limit, submit fails — with the generic
server error — and the store, hence every attempt record and aggregate, is
unchanged. -/
theorem C5_unknown_question_server_error (st : Store) (studentId quizId : String)
    (answers : List AnswerIn) (timeSpent : Nat) (now : ℤ) (quiz : Quiz)
    (hq : st.quizzes.find? (fun q => q.qid == quizId) = some quiz)
    (hpub : quiz.isPublished = true)
    (hlt : (st.attempts.filter (fun a => a.quiz == quizId && a.student == studentId)).length
             < quiz.maxAttempts)
    (hunknown : ∃ a ∈ answers,
      quiz.questions.find? (fun x => x.qid == a.questionId) = none) :
    submit st studentId quizId answers timeSpent now =
      (Except.error SubmitErr.serverError, st) := by
  have hperr := processAnswers_error_of_unknown quiz.questions answers hunknown
  simp only [submit, hq, hpub]
  rw [if_neg (by simp), if_neg (Nat.not_le.mpr hlt), hperr]

/-- C5 witness: the amended unknown-reference property instantiated on
`storeSingle`. -/
theorem C5_unknown_question_server_error_witness :
    submit storeSingle "s1" "qz"
      [{ questionId := "zzz", selectedAnswer := "a1", timeSpent := none }] 21 1000 =
      (Except.error SubmitErr.serverError, storeSingle) :=
  C5_unknown_question_server_error storeSingle "s1" "qz"
    [{ questionId := "zzz", selectedAnswer := "a1", timeSpent := none }] 21 1000 quizSingle
    rfl rfl (by decide)
    ⟨{ questionId := "zzz", selectedAnswer := "a1", timeSpent := none },
     List.mem_cons_self _ _, rfl⟩

/-- C6: a student reading a published, accessible quiz receives every question
with its option list reduced to id and text (no isCorrect flag in the view),
`correctAnswer` and `explanation` omitted, and the store is returned
unchanged. -/
theorem C6_student_read_sanitised (st : Store) (actor : User) (quizId : String) (quiz : Quiz)
    (hrole : actor.role = "student")
    (hq : st.quizzes.find? (fun q => q.qid == quizId) = some quiz)
    (hpub : quiz.isPublished = true)
    (hallow : quiz.allowedStudents = [] ∨ actor.uid ∈ quiz.allowedStudents) :
    ∃ v, getQuizById st actor quizId = (Except.ok v, st) ∧
      List.Forall₂ (fun (q : Question) (qv : QuestionView) =>
        qv.correctAnswer = none ∧ qv.explanation = none ∧
        qv.options = q.options.map
          (fun opt => { oid := opt.oid, text := opt.text, isCorrect := none }))
        quiz.questions v.questions := by
  have hcond : (0 < quiz.allowedStudents.length &&
      !(quiz.allowedStudents.any (fun s => s == actor.uid))) = false := by
    rcases hallow with h | h
    · simp [h]
    · have hany : quiz.allowedStudents.any (fun s => s == actor.uid) = true :=
        List.any_eq_true.mpr ⟨actor.uid, h, by simp⟩
      simp [hany]
  have hmain : getQuizById st actor quizId =
      (Except.ok { qid := quiz.qid, questions := quiz.questions.map studentQuestionView,
                   userAttempts := st.attempts.filter
                     (fun a => a.quiz == quizId && a.student == actor.uid) }, st) := by
    simp [getQuizById, hq, hrole, hpub, hcond]
  refine ⟨_, hmain, ?_⟩
  rw [List.forall₂_map_right_iff]
  exact List.forall₂_same.mpr (fun x _ => ⟨rfl, rfl, rfl⟩)

/-- C6 witness: the sanitisation property instantiated on `storeRich`, whose
question carries a correct-option flag, a canonical answer and an
explanation. -/
theorem C6_student_read_sanitised_witness :
    ∃ v, getQuizById storeRich studentS1 "qr" = (Except.ok v, storeRich) ∧
      List.Forall₂ (fun (q : Question) (qv : QuestionView) =>
        qv.correctAnswer = none ∧ qv.explanation = none ∧
        qv.options = q.options.map
          (fun opt => { oid := opt.oid, text := opt.text, isCorrect := none }))
        quizRich.questions v.questions :=
  C6_student_read_sanitised storeRich studentS1 "qr" quizRich rfl rfl rfl (Or.inl rfl)

/-- C7: the public register endpoint ignores the requested role and executes
the bare assignment of the admin role, so every registration — whatever role
is requested, or none — creates an admin account, never a student one; the
admin-only user-creation endpoint, in contrast, honours the explicit role. -/
theorem C7_register_assigns_admin :
    ((register [] "Alice" "a@b.c" "secret1" (some "student") "u1").1.map
        (fun u => u.role)) = Except.ok "admin" ∧
    ((register [] "Alice" "a@b.c" "secret1" none "u1").1.map
        (fun u => u.role)) = Except.ok "admin" ∧
    ("admin" : String) ≠ "student" ∧
    ((adminCreateUser [] adminA "Bob" "bob@example.com" "secret1" "teacher" "u2").1.map
        (fun r => r.map (fun u => u.role))) = Except.ok (Except.ok "teacher") :=
  ⟨by decide, by decide, by decide, by decide⟩

/-- C9: a teacher who does not own a question is denied read, update and
delete on it — each request answers PermissionDenied and the question store
is unchanged. -/
theorem C9_foreign_teacher_denied (qs : List Question) (actor : User) (id : String)
    (q : Question)
    (hrole : actor.role = "teacher")
    (hfind : qs.find? (fun x => x.qid == id) = some q)
    (howner : (q.createdBy == actor.uid) = false) :
    getQuestionById qs actor id = Except.error ApiErr.permissionDenied ∧
    (∀ upd, updateQuestion qs actor id upd = (Except.error ApiErr.permissionDenied, qs)) ∧
    deleteQuestion qs actor id = (Except.error ApiErr.permissionDenied, qs) := by
  have hauth : questionRouteAuthorized actor = true := by
    simp [questionRouteAuthorized, hrole]
  refine ⟨?_, fun upd => ?_, ?_⟩ <;>
    simp [getQuestionById, updateQuestion, deleteQuestion, hauth, hfind, hrole, howner]

/-- C9 witness: teacher B denied on teacher A's question. -/
theorem C9_foreign_teacher_denied_witness :
    getQuestionById [questionOfA] teacherB "QA" = Except.error ApiErr.permissionDenied ∧
    (∀ upd, updateQuestion [questionOfA] teacherB "QA" upd =
      (Except.error ApiErr.permissionDenied, [questionOfA])) ∧
    deleteQuestion [questionOfA] teacherB "QA" =
      (Except.error ApiErr.permissionDenied, [questionOfA]) :=
  C9_foreign_teacher_denied [questionOfA] teacherB "QA" questionOfA rfl rfl rfl

theorem processAnswers_resolves (qs : List Question) :
    ∀ answers processed, processAnswers qs answers = Except.ok processed →
      ∀ a ∈ answers, ∃ q, qs.find? (fun x => x.qid == a.questionId) = some q := by
  intro answers
  induction answers with
  | nil => intro processed _ x hx; cases hx
  | cons a rest ih =>
    intro processed h x hx
    simp only [processAnswers] at h
    cases hf : qs.find? (fun q => q.qid == a.questionId) with
    | none => simp only [hf] at h; cases h
    | some q =>
      simp only [hf] at h
      cases hg : gradeAnswer q a.selectedAnswer with
      | none => simp only [hg] at h; cases h
      | some b =>
        simp only [hg] at h
        cases hr : processAnswers qs rest with
        | error e => simp only [hr] at h; cases h
        | ok recs =>
          rcases List.mem_cons.mp hx with rfl | hx2
          · exact ⟨q, hf⟩
          · exact ih recs hr x hx2

theorem answers_length_le_of_nodup (qs : List Question) (answers : List AnswerIn)
    (hnodup : (answers.map (fun a => a.questionId)).Nodup)
    (hres : ∀ a ∈ answers, ∃ q, qs.find? (fun x => x.qid == a.questionId) = some q) :
    answers.length ≤ qs.length := by
  have hsub : (answers.map (fun a => a.questionId)) ⊆ qs.map (fun q => q.qid) := by
    intro x hx
    obtain ⟨a, ha, rfl⟩ := List.mem_map.mp hx
    obtain ⟨q, hq⟩ := hres a ha
    have hqmem : q ∈ qs := List.mem_of_find?_eq_some hq
    have hqe := List.find?_some hq
    have heq : q.qid = a.questionId := by simpa using hqe
    exact heq ▸ List.mem_map_of_mem (fun q => q.qid) hqmem
  have hle := (hnodup.subperm hsub).length_le
  simpa using hle

unseal Rat.add Rat.mul Rat.inv Rat.sub in
/-- C8 counterexample: a submitted answer list that repeats the quiz's single
question, both copies correct, passes the code's preconditions and persists
an attempt with percentage 200, outside the 0..100 range the claim states. -/
theorem C8_duplicate_answers_exceed_100 :
    (submit storeSingle "s1" "qz" duplicateAnswers 20 1000).1 =
      Except.ok { score := 2, percentage := 200, passed := true, timeSpent := 20,
                  attemptNumber := 1 } ∧
    ((submit storeSingle "s1" "qz" duplicateAnswers 20 1000).2.attempts.map
        (fun a => a.percentage)) = [200] ∧
    ¬((200 : ℤ) ≤ 100) :=
  ⟨by decide, by decide, by decide⟩

/-- C8 (amended): for accepted answer lists whose questionIds are pairwise
distinct (each resolving into the nonempty quiz), the returned and persisted
percentage lies in 0..100; with duplicated questionIds the bound can fail. -/
theorem C8_percentage_bounded_nodup (st : Store) (studentId quizId : String)
    (answers : List AnswerIn) (timeSpent : Nat) (now : ℤ) (quiz : Quiz)
    (processed : List AnswerRec)
    (hq : st.quizzes.find? (fun q => q.qid == quizId) = some quiz)
    (hpub : quiz.isPublished = true)
    (hlt : (st.attempts.filter (fun a => a.quiz == quizId && a.student == studentId)).length
             < quiz.maxAttempts)
    (hproc : processAnswers quiz.questions answers = Except.ok processed)
    (hnodup : (answers.map (fun a => a.questionId)).Nodup)
    (hne : quiz.questions ≠ []) :
    ∃ r st2, submit st studentId quizId answers timeSpent now = (Except.ok r, st2) ∧
      0 ≤ r.percentage ∧ r.percentage ≤ 100 ∧
      ∃ att, st2.attempts = st.attempts ++ [att] ∧ att.percentage = r.percentage := by
  obtain ⟨att, st2, heq, hquiz, hstu, hans, hscore, hpct, hpass, hnum, hatt, hqz, hus⟩ :=
    submit_ok_spec st studentId quizId answers timeSpent now quiz processed hq hpub hlt hproc
  have hlen : processed.length = answers.length :=
    processAnswers_length quiz.questions answers processed hproc
  have hres := processAnswers_resolves quiz.questions answers processed hproc
  have hle : answers.length ≤ quiz.questions.length :=
    answers_length_le_of_nodup quiz.questions answers hnodup hres
  have hcle : att.score ≤ quiz.questions.length := by
    rw [hscore]
    calc (processed.filter (fun rec => rec.isCorrect)).length
        ≤ processed.length := List.length_filter_le _ _
      _ = answers.length := hlen
      _ ≤ quiz.questions.length := hle
  have hn : 0 < quiz.questions.length := List.length_pos.mpr hne
  have hnq : (0 : ℚ) < (quiz.questions.length : ℚ) := by exact_mod_cast hn
  have harg0 : (0 : ℚ) ≤ ((att.score : ℚ) / (quiz.questions.length : ℚ)) * 100 := by
    positivity
  have harg1 : ((att.score : ℚ) / (quiz.questions.length : ℚ)) * 100 ≤ 100 := by
    have hdiv : (att.score : ℚ) / (quiz.questions.length : ℚ) ≤ 1 := by
      rw [div_le_one hnq]
      exact_mod_cast hcle
    nlinarith
  refine ⟨_, st2, heq, ?_, ?_, att, hatt, rfl⟩
  · show (0 : ℤ) ≤ att.percentage
    rw [hpct]
    exact jsRound_nonneg _ harg0
  · show att.percentage ≤ 100
    rw [hpct]
    exact jsRound_le_100 _ harg1

unseal Rat.add Rat.mul Rat.inv Rat.sub in
/-- C8 witness: the amended bound instantiated on the four-question quiz with
distinct questionIds. -/
theorem C8_percentage_bounded_nodup_witness :
    ∃ r st2, submit storeFour "s1" "q4" answersThreeCorrect 100 1000 = (Except.ok r, st2) ∧
      0 ≤ r.percentage ∧ r.percentage ≤ 100 ∧
      ∃ att, st2.attempts = storeFour.attempts ++ [att] ∧ att.percentage = r.percentage :=
  C8_percentage_bounded_nodup storeFour "s1" "q4" answersThreeCorrect 100 1000 quizFour
    processedThreeCorrect rfl rfl (by decide) rfl (by decide) (by decide)

/-- C10: the five score-distribution buckets are pairwise disjoint and cover
0..100 — every percentage in range lies in exactly one bucket, and over any
attempt list with in-range percentages the five histogram counts sum to the number
of attempts. -/
theorem C10_buckets_partition :
    (∀ p : ℤ, 0 ≤ p → p ≤ 100 → buckets.countP (fun b => b p) = 1) ∧
    (∀ attempts : List Attempt,
      (∀ a ∈ attempts, 0 ≤ a.percentage ∧ a.percentage ≤ 100) →
      (scoreDistribution attempts).sum = attempts.length) := by
  constructor
  · intro p h0 h1
    simp only [buckets, List.countP_cons, List.countP_nil]
    simp only [Bool.and_eq_true, decide_eq_true_eq]
    split_ifs <;> omega
  · intro attempts
    induction attempts with
    | nil => intro _; rfl
    | cons a l ih =>
      intro h
      have ha := h a (List.mem_cons_self a l)
      have ihl := ih (fun x hx => h x (List.mem_cons_of_mem a hx))
      simp only [scoreDistribution, buckets, List.map_cons, List.map_nil, List.filter_cons,
        List.sum_cons, List.sum_nil] at ihl ⊢
      split_ifs <;> simp_all <;> omega

/-- C10 witness: percentage 50 lies in exactly one bucket, and the histogram
over a single in-range attempt counts exactly that attempt. -/
theorem C10_buckets_partition_witness :
    buckets.countP (fun b => b 50) = 1 ∧ (scoreDistribution [attemptP50]).sum = 1 :=
  ⟨C10_buckets_partition.1 50 (by decide) (by decide),
   C10_buckets_partition.2 [attemptP50] (by decide)⟩

end QuizApp
